import Mathlib

/-!
Verification of the pluggable embedding-provider abstraction of the ragas
repository (spec sections 2-8).  The repository material under `src/` is a
tutorial notebook that only *calls* the library (`AnswerSimilarity`,
`evaluate`, the embedding classes); the implementations themselves are not
in `src/`, so every definition below is modelled from the specification's
words, as the doc comments record.
-/

namespace Ragas

/-- Modelled from the spec: a text fragment handed to a provider
(the implementation of the text type is not in `src/`). -/
abbrev Text := String

/-- Modelled from the spec (section 3): an `EmbeddingVector` is an ordered
sequence of numbers of the provider's fixed dimensionality, immutable once
produced.  The numeric entries are modelled as rationals. -/
abbrev EmbeddingVector := List ℚ

/-- Modelled from the spec (section 7): the error taxonomy of the provider
interface — `ProviderUnavailable` for backend failure after bounded retries,
`InvalidInput` for text that cannot be encoded. -/
inductive EmbedError where
  | providerUnavailable
  | invalidInput
  deriving Repr, DecidableEq

/-- Modelled from the spec (section 3): a `ProviderConfig` names a model
identifier and backend-specific connection parameters (endpoint, deployment
name, API version, credential); read-only after construction. -/
structure ProviderConfig where
  modelId : String
  endpointUrl : Option String := none
  deployment : Option String := none
  apiVersion : Option String := none
  credential : Option String := none
  deriving Repr, DecidableEq

/-- Modelled from the spec (section 4.1): the uniform `EmbeddingProvider`
interface — `embed : text -> EmbeddingVector` with the declared fixed
dimensionality `dim`, failing with an `EmbedError` when the backend cannot
be reached or the text cannot be encoded. -/
structure EmbeddingProvider where
  dim : Nat
  embed : Text → Except EmbedError EmbeddingVector

/-- Modelled from the spec (section 4.1): the optional batched form
`embedMany`, defined pointwise from `embed`, preserving input order and
propagating the first provider error. -/
def EmbeddingProvider.embedMany (p : EmbeddingProvider) :
    List Text → Except EmbedError (List EmbeddingVector)
  | [] => Except.ok []
  | t :: ts =>
    match p.embed t with
    | Except.error e => Except.error e
    | Except.ok v =>
      match p.embedMany ts with
      | Except.error e => Except.error e
      | Except.ok vs => Except.ok (v :: vs)

/-- Modelled from the spec (section 4.2): the hosted-API adapter
(the notebook's `AzureOpenAIEmbeddings` usage).  The remote endpoint is
modelled as a function from the attempt number and the text to an optional
raw vector; `none` is a transient network failure.  `tokenLimit` bounds the
texts the adapter accepts; `maxRetries` bounds the retries. -/
structure HostedAdapter where
  config : ProviderConfig
  dim : Nat
  tokenLimit : Nat
  maxRetries : Nat
  backend : Nat → Text → Option EmbeddingVector

/-- Modelled from the spec (section 4.2): the retry loop of the hosted-API
adapter — try the backend, retry on transient failure while attempts remain,
and surface a terminal `ProviderUnavailable` after exhausting retries. -/
def retryEmbed (backend : Nat → Text → Option EmbeddingVector) (t : Text) :
    Nat → Nat → Except EmbedError EmbeddingVector
  | attempt, 0 =>
    match backend attempt t with
    | some v => Except.ok v
    | none => Except.error EmbedError.providerUnavailable
  | attempt, fuel + 1 =>
    match backend attempt t with
    | some v => Except.ok v
    | none => retryEmbed backend t (attempt + 1) fuel

/-- Modelled from the spec (sections 4.1, 4.2): the hosted-API adapter's
`embed` — reject text over the token limit with `InvalidInput`, otherwise
call the backend with bounded retries. -/
def HostedAdapter.embed (a : HostedAdapter) (t : Text) :
    Except EmbedError EmbeddingVector :=
  if t.length ≤ a.tokenLimit then retryEmbed a.backend t 0 a.maxRetries
  else Except.error EmbedError.invalidInput

/-- Modelled from the spec (section 4.2): a hosted adapter viewed through
the uniform `EmbeddingProvider` interface. -/
def HostedAdapter.toProvider (a : HostedAdapter) : EmbeddingProvider :=
  { dim := a.dim, embed := a.embed }

/-- Modelled from the spec (section 4.2): a local-model adapter (the
notebook's `FastEmbedEmbeddings` / `HuggingfaceEmbeddings` usage): a model
loaded once at construction, computing embeddings in-process.  The loaded
model is a function producing one coordinate per dimension, so its output
dimensionality is fixed by construction. -/
structure LocalAdapter where
  modelName : String
  tokenLimit : Nat
  dim : Nat
  model : Text → Fin dim → ℚ

/-- Modelled from the spec (sections 4.1, 4.2): the local adapter's `embed`
— reject text over the token limit with `InvalidInput`, otherwise evaluate
the in-process model, with no network I/O. -/
def LocalAdapter.embed (a : LocalAdapter) (t : Text) :
    Except EmbedError EmbeddingVector :=
  if t.length ≤ a.tokenLimit then Except.ok (List.ofFn (a.model t))
  else Except.error EmbedError.invalidInput

/-- Modelled from the spec (section 4.2): a local adapter viewed through
the uniform `EmbeddingProvider` interface. -/
def LocalAdapter.toProvider (a : LocalAdapter) : EmbeddingProvider :=
  { dim := a.dim, embed := a.embed }

/-- Modelled from the spec (section 2): the LLM client injected into the
metric next to the provider; opaque to the similarity scoring. -/
structure LLMClient where
  name : String
  deriving Repr, DecidableEq

/-- Modelled from the spec (sections 4.3, 7): the errors of the scoring
operation — `DimensionMismatch` for vectors of different lengths, and a
propagated provider error. -/
inductive ScoreError where
  | dimensionMismatch
  | providerError (e : EmbedError)
  deriving Repr, DecidableEq

/-- Dot product of two embedding vectors, coordinate by coordinate. -/
def dotProduct : EmbeddingVector → EmbeddingVector → ℚ
  | [], _ => 0
  | _, [] => 0
  | a :: v, b :: w => a * b + dotProduct v w

/-- Clamp a rational into the closed interval from 0 to 1. -/
def clamp01 (x : ℚ) : ℚ := max 0 (min 1 x)

/-- Modelled from the spec (section 4.3): the similarity score between two
embedding vectors.  The spec fixes only that it is a similarity (e.g. cosine)
returning a scalar in a bounded range; it is modelled as the dot-product
similarity clamped into the unit interval. -/
def similarity (v w : EmbeddingVector) : ℚ := clamp01 (dotProduct v w)

/-- Modelled from the spec (section 4.3): score two already-embedded
vectors, failing with `DimensionMismatch` when their lengths differ. -/
def scoreVectors (v w : EmbeddingVector) : Except ScoreError ℚ :=
  if v.length = w.length then Except.ok (similarity v w)
  else Except.error ScoreError.dimensionMismatch

/-- Modelled from the spec (sections 2, 3): the metric consumer — it holds
one `EmbeddingProvider` and one `LLMClient`, both injected at construction,
plus its name used as the key in `evaluate` results. -/
structure Metric where
  name : String
  provider : EmbeddingProvider
  llm : LLMClient

/-- Modelled from the spec (section 4.3): the metric's scoring operation —
embed the candidate and the reference via the configured provider,
propagating any provider error, then score the two vectors. -/
def Metric.score (m : Metric) (candidate reference : Text) :
    Except ScoreError ℚ :=
  match m.provider.embed candidate with
  | Except.error e => Except.error (ScoreError.providerError e)
  | Except.ok v =>
    match m.provider.embed reference with
    | Except.error e => Except.error (ScoreError.providerError e)
    | Except.ok w => scoreVectors v w

/-- Modelled from the spec (section 5, read-only dependencies): the scoring
operation paired with the metric state it leaves behind; scoring mutates
nothing, so the metric — its provider, LLM client and name — is returned
unchanged. -/
def Metric.scoreWithState (m : Metric) (candidate reference : Text) :
    Except ScoreError ℚ × Metric :=
  (m.score candidate reference, m)

/-- Modelled from the spec (section 4.1, no other side effects): `embed`
paired with the provider state it leaves behind; the provider is returned
unchanged. -/
def EmbeddingProvider.embedWithState (p : EmbeddingProvider) (t : Text) :
    Except EmbedError EmbeddingVector × EmbeddingProvider :=
  (p.embed t, p)

/-- Modelled from the spec (section 3, `ProviderConfig` read-only after
construction): the hosted adapter's `embed` paired with the adapter state it
leaves behind; the adapter — its configuration included — is returned
unchanged. -/
def HostedAdapter.embedWithState (a : HostedAdapter) (t : Text) :
    Except EmbedError EmbeddingVector × HostedAdapter :=
  (a.embed t, a)

/-- Modelled from the notebook's `AnswerSimilarity(llm=..., embeddings=...)`
constructor: build the answer-similarity metric from an injected LLM client
and embedding provider. -/
def AnswerSimilarity (llm : LLMClient) (embeddings : EmbeddingProvider) :
    Metric :=
  { name := "answer_similarity", provider := embeddings, llm := llm }

/-- Modelled from the spec (section 6): a dataset row as seen by the metric
— a candidate answer and a reference. -/
structure Row where
  candidate : Text
  reference : Text

/-- Modelled from the spec (section 6): a metric applied once per dataset
row by the orchestrator; the row scores are averaged into the metric's
aggregate score, and any row failure is the outcome. -/
def Metric.scoreDataset (m : Metric) (ds : List Row) : Except ScoreError ℚ :=
  match ds.mapM (fun r => m.score r.candidate r.reference) with
  | Except.error e => Except.error e
  | Except.ok ss =>
    Except.ok (if ds.length = 0 then 0 else ss.sum / (ds.length : ℚ))

/-- Modelled from the notebook's `evaluate(dataset, metrics=[...])` entry
point: one result entry per supplied metric, keyed by the metric's name,
holding that metric's score on the dataset. -/
def evaluate (ds : List Row) (metrics : List Metric) :
    List (String × Except ScoreError ℚ) :=
  metrics.map (fun m => (m.name, m.scoreDataset ds))

/-- Modelled from the spec (section 9): a world of constructed metrics, to
state that constructing a new metric leaves existing metrics untouched. -/
def World := List Metric

/-- Constructing a new metric appends it to the world. -/
def constructMetric (w : World) (m : Metric) : World :=
  List.append w [m]

/-- The score of the metric at position `i` of the world, if any. -/
def scoreAt (w : World) (i : Nat) (candidate reference : Text) :
    Option (Except ScoreError ℚ) :=
  (List.get? w i).map (fun m => m.score candidate reference)

/-! Concrete sample instances, used by the witness theorems below. -/

/-- A sample configuration, as in the notebook's Azure cell. -/
def sampleConfig : ProviderConfig :=
  { modelId := "text-embedding-ada-002"
    endpointUrl := some "https://your-endpoint.openai.azure.com/"
    deployment := some "your-deployment-name"
    apiVersion := some "2023-05-15"
    credential := some "your-openai-key" }

/-- A sample remote backend that always answers with a 2-dimensional vector. -/
def sampleBackend : Nat → Text → Option EmbeddingVector :=
  fun _ _ => some [1, 0]

/-- A simulated always-failing remote backend. -/
def failingBackend : Nat → Text → Option EmbeddingVector :=
  fun _ _ => none

/-- A sample hosted-API adapter over `sampleBackend`. -/
def sampleHosted : HostedAdapter :=
  { config := sampleConfig, dim := 2, tokenLimit := 100, maxRetries := 3
    backend := sampleBackend }

/-- A hosted-API adapter over the always-failing backend. -/
def failingHosted : HostedAdapter :=
  { config := sampleConfig, dim := 2, tokenLimit := 100, maxRetries := 3
    backend := failingBackend }

/-- A sample local-model adapter with a 2-dimensional model. -/
def sampleLocal : LocalAdapter :=
  { modelName := "BAAI/bge-base-en", tokenLimit := 100, dim := 2
    model := fun _ i => if i.val = 0 then 1 else 0 }

/-- A sample LLM client, standing for the notebook's wrapped Azure model. -/
def sampleLLM : LLMClient := { name := "gpt-35-turbo-16k" }

/-! Helper lemmas. -/

/-- A successful retry loop returns a vector produced by the backend on
some attempt. -/
theorem retryEmbed_ok_backend (backend : Nat → Text → Option EmbeddingVector)
    (t : Text) :
    ∀ fuel attempt v, retryEmbed backend t attempt fuel = Except.ok v →
      ∃ k, backend k t = some v := by
  intro fuel
  induction fuel with
  | zero =>
    intro attempt v h
    cases hb : backend attempt t with
    | none => simp [retryEmbed, hb] at h
    | some x =>
      refine ⟨attempt, ?_⟩
      simp [retryEmbed, hb] at h
      rw [hb, h]
  | succ n ih =>
    intro attempt v h
    cases hb : backend attempt t with
    | none =>
      simp only [retryEmbed, hb] at h
      exact ih (attempt + 1) v h
    | some x =>
      refine ⟨attempt, ?_⟩
      simp [retryEmbed, hb] at h
      rw [hb, h]

/-- Against a backend that fails on every attempt, the retry loop exhausts
its fuel and reports `ProviderUnavailable`. -/
theorem retryEmbed_all_fail (backend : Nat → Text → Option EmbeddingVector)
    (t : Text) (hb : ∀ k u, backend k u = none) :
    ∀ fuel attempt, retryEmbed backend t attempt fuel =
      Except.error EmbedError.providerUnavailable := by
  intro fuel
  induction fuel with
  | zero => intro attempt; simp [retryEmbed, hb]
  | succ n ih => intro attempt; simp only [retryEmbed, hb]; exact ih (attempt + 1)

/-! Claim theorems. -/

/-- C1: for every text a provider accepts, `embed` returns a vector whose
length equals the provider's declared fixed dimensionality — unconditionally
for the local-model adapters, and for the hosted-API adapter whenever its
backend serves vectors of the declared dimension. -/
theorem embed_dim_fixed :
    (∀ (la : LocalAdapter) (t : Text) (v : EmbeddingVector),
        la.toProvider.embed t = Except.ok v → v.length = la.toProvider.dim) ∧
    (∀ (ha : HostedAdapter),
        (∀ k u x, ha.backend k u = some x → x.length = ha.dim) →
        ∀ (t : Text) (v : EmbeddingVector),
          ha.toProvider.embed t = Except.ok v → v.length = ha.toProvider.dim) := by
  constructor
  · intro la t v h
    simp only [LocalAdapter.toProvider, LocalAdapter.embed] at h
    split at h
    · simp only [Except.ok.injEq] at h
      rw [← h, List.length_ofFn]
      rfl
    · exact absurd h (by simp)
  · intro ha hwf t v h
    simp only [HostedAdapter.toProvider, HostedAdapter.embed] at h
    split at h
    · obtain ⟨k, hk⟩ := retryEmbed_ok_backend ha.backend t ha.maxRetries 0 v h
      exact hwf k t v hk
    · exact absurd h (by simp)

/-- Witness for C1 at the sample adapters and the text hi. -/
theorem embed_dim_fixed_witness :
    sampleLocal.toProvider.embed "hi" = Except.ok [1, 0] ∧
    ([1, 0] : EmbeddingVector).length = sampleLocal.toProvider.dim ∧
    sampleHosted.toProvider.embed "hi" = Except.ok [1, 0] ∧
    ([1, 0] : EmbeddingVector).length = sampleHosted.toProvider.dim := by
  have h1 : sampleLocal.toProvider.embed "hi" = Except.ok [1, 0] := rfl
  have h2 : sampleHosted.toProvider.embed "hi" = Except.ok [1, 0] := rfl
  refine ⟨h1, embed_dim_fixed.1 sampleLocal "hi" [1, 0] h1, h2, ?_⟩
  refine embed_dim_fixed.2 sampleHosted ?_ "hi" [1, 0] h2
  intro k u x hx
  simp only [sampleHosted, sampleBackend, Option.some.injEq] at hx
  rw [← hx]
  rfl

/-- C3: when the hosted-API adapter's backend fails on every attempt and
the text is within the token limit, `embed` exhausts its bounded retries and
terminates with `ProviderUnavailable`; it never returns a vector. -/
theorem hosted_exhausts_retries (a : HostedAdapter) (t : Text)
    (hb : ∀ k u, a.backend k u = none) (ht : t.length ≤ a.tokenLimit) :
    a.embed t = Except.error EmbedError.providerUnavailable ∧
    ∀ v : EmbeddingVector, a.embed t ≠ Except.ok v := by
  have h : a.embed t = Except.error EmbedError.providerUnavailable := by
    simp only [HostedAdapter.embed, if_pos ht]
    exact retryEmbed_all_fail a.backend t hb a.maxRetries 0
  exact ⟨h, fun v hv => by rw [h] at hv; exact absurd hv (by simp)⟩

/-- Witness for C3 at the always-failing hosted adapter and the text hi. -/
theorem hosted_exhausts_retries_witness :
    failingHosted.embed "hi" = Except.error EmbedError.providerUnavailable ∧
    failingHosted.embed "hi" ≠ Except.ok [] := by
  have h := hosted_exhausts_retries failingHosted "hi" (fun _ _ => rfl) (by decide)
  exact ⟨h.1, h.2 []⟩

/-- C2: a successful `embedMany [T1, ..., Tn]` returns exactly n vectors,
and the i-th returned vector is the (successful) result of `embed Ti`, so
output order matches input order. -/
theorem embedMany_ordered (p : EmbeddingProvider) (ts : List Text)
    (vs : List EmbeddingVector) (h : p.embedMany ts = Except.ok vs) :
    vs.length = ts.length ∧
    ∀ i : Nat, i < ts.length →
      (List.get? vs i).map Except.ok = (List.get? ts i).map p.embed := by
  induction ts generalizing vs with
  | nil =>
    simp only [EmbeddingProvider.embedMany, Except.ok.injEq] at h
    subst h
    exact ⟨rfl, fun i hi => absurd hi (by simp)⟩
  | cons t ts ih =>
    simp only [EmbeddingProvider.embedMany] at h
    cases he : p.embed t with
    | error e => rw [he] at h; exact absurd h (by simp)
    | ok v =>
      rw [he] at h
      cases hm : p.embedMany ts with
      | error e => rw [hm] at h; exact absurd h (by simp)
      | ok vs2 =>
        rw [hm] at h
        simp only [Except.ok.injEq] at h
        subst h
        obtain ⟨hlen, hidx⟩ := ih vs2 hm
        refine ⟨by simp [hlen], ?_⟩
        intro i hi
        cases i with
        | zero => simp [he]
        | succ j =>
          simp only [List.get?]
          exact hidx j (by simpa using hi)

/-- Witness for C2 at the sample local provider and a two-text batch. -/
theorem embedMany_ordered_witness :
    sampleLocal.toProvider.embedMany ["a", "bb"] =
      Except.ok [[1, 0], [1, 0]] ∧
    ([[1, 0], [1, 0]] : List EmbeddingVector).length =
      (["a", "bb"] : List Text).length ∧
    (List.get? ([[1, 0], [1, 0]] : List EmbeddingVector) 1).map Except.ok =
      (List.get? (["a", "bb"] : List Text) 1).map sampleLocal.toProvider.embed := by
  have h : sampleLocal.toProvider.embedMany ["a", "bb"] =
      Except.ok [[1, 0], [1, 0]] := rfl
  obtain ⟨hlen, hidx⟩ :=
    embedMany_ordered sampleLocal.toProvider ["a", "bb"] [[1, 0], [1, 0]] h
  exact ⟨h, hlen, hidx 1 (by decide)⟩

/-- C4: scoring two vectors of different lengths fails with
`DimensionMismatch`, and a metric scores only through its single injected
provider (mixing two providers in one scoring operation is impossible by
construction). -/
theorem score_dimension_mismatch (v w : EmbeddingVector)
    (h : v.length ≠ w.length) :
    scoreVectors v w = Except.error ScoreError.dimensionMismatch := by
  simp only [scoreVectors, if_neg h]

/-- Witness for C4 at a 1-dimensional and a 2-dimensional vector. -/
theorem score_dimension_mismatch_witness :
    ([1] : EmbeddingVector).length ≠ ([1, 0] : EmbeddingVector).length ∧
    scoreVectors [1] [1, 0] = Except.error ScoreError.dimensionMismatch :=
  ⟨by decide, score_dimension_mismatch [1] [1, 0] (by decide)⟩

/-- C5: the score is a deterministic function of the two texts and the
provider: two metrics with the same provider — whatever their names or LLM
clients, and in particular the same metric called twice — return identical
results on the same candidate/reference pair. -/
theorem score_deterministic (m1 m2 : Metric) (candidate reference : Text)
    (h : m1.provider = m2.provider) :
    m1.score candidate reference = m2.score candidate reference := by
  unfold Metric.score
  rw [h]

/-- Witness for C5: two distinct metrics sharing the sample provider. -/
theorem score_deterministic_witness :
    (AnswerSimilarity sampleLLM sampleLocal.toProvider).provider =
      (Metric.mk "other" sampleLocal.toProvider (LLMClient.mk "x")).provider ∧
    (AnswerSimilarity sampleLLM sampleLocal.toProvider).score "c" "r" =
      (Metric.mk "other" sampleLocal.toProvider (LLMClient.mk "x")).score "c" "r" :=
  ⟨rfl, score_deterministic _ _ "c" "r" rfl⟩

/-- C6: on every candidate/reference pair where scoring succeeds, the
metric embedded both texts via its single configured provider, the score is
the similarity of the two resulting vectors, and it lies in the bounded
range from 0 to 1. -/
theorem score_ok_shape (m : Metric) (candidate reference : Text) (s : ℚ)
    (h : m.score candidate reference = Except.ok s) :
    ∃ v w : EmbeddingVector,
      m.provider.embed candidate = Except.ok v ∧
      m.provider.embed reference = Except.ok w ∧
      s = similarity v w ∧ 0 ≤ s ∧ s ≤ 1 := by
  unfold Metric.score at h
  cases hc : m.provider.embed candidate with
  | error e => rw [hc] at h; exact absurd h (by simp)
  | ok v =>
    rw [hc] at h
    cases hr : m.provider.embed reference with
    | error e => rw [hr] at h; exact absurd h (by simp)
    | ok w =>
      rw [hr] at h
      simp only [scoreVectors] at h
      split at h
      · simp only [Except.ok.injEq] at h
        refine ⟨v, w, rfl, rfl, h.symm, ?_, ?_⟩
        · rw [← h]; exact le_max_left 0 _
        · rw [← h]
          simp only [similarity, clamp01]
          exact max_le (by norm_num) (min_le_left 1 _)
      · exact absurd h (by simp)

/-- Witness for C6 at the sample answer-similarity metric. -/
theorem score_ok_shape_witness :
    (AnswerSimilarity sampleLLM sampleLocal.toProvider).score "c" "r" =
      Except.ok 1 ∧
    ∃ v w : EmbeddingVector,
      (AnswerSimilarity sampleLLM sampleLocal.toProvider).provider.embed "c" =
        Except.ok v ∧
      (AnswerSimilarity sampleLLM sampleLocal.toProvider).provider.embed "r" =
        Except.ok w ∧
      (1 : ℚ) = similarity v w ∧ (0 : ℚ) ≤ 1 ∧ (1 : ℚ) ≤ 1 := by
  have hsim : similarity [1, 0] [1, 0] = 1 := by
    norm_num [similarity, clamp01, dotProduct]
  have h : (AnswerSimilarity sampleLLM sampleLocal.toProvider).score "c" "r" =
      Except.ok 1 := by
    have h0 : (AnswerSimilarity sampleLLM sampleLocal.toProvider).score "c" "r" =
        Except.ok (similarity [1, 0] [1, 0]) := rfl
    rw [h0, hsim]
  exact ⟨h, score_ok_shape _ "c" "r" 1 h⟩

/-- C7: configuration and injected dependencies are read-only — after any
embed call the adapter state, its `ProviderConfig` included, is unchanged,
and after any scoring call the metric state, its injected provider and LLM
client included, is unchanged. -/
theorem dependencies_read_only (m : Metric) (candidate reference : Text)
    (p : EmbeddingProvider) (a : HostedAdapter) (t u : Text) :
    (m.scoreWithState candidate reference).2 = m ∧
    (m.scoreWithState candidate reference).2.provider = m.provider ∧
    (m.scoreWithState candidate reference).2.llm = m.llm ∧
    (p.embedWithState t).2 = p ∧
    (a.embedWithState u).2 = a ∧
    (a.embedWithState u).2.config = a.config :=
  ⟨rfl, rfl, rfl, rfl, rfl, rfl⟩

/-- C8: a provider failure during scoring — on the candidate or, the
candidate having succeeded, on the reference — is the outcome of the whole
scoring operation, as `providerError` carrying that very error; no default
score is substituted. -/
theorem provider_error_propagates (m : Metric) (candidate reference : Text)
    (e : EmbedError)
    (h : m.provider.embed candidate = Except.error e ∨
      (∃ v, m.provider.embed candidate = Except.ok v ∧
        m.provider.embed reference = Except.error e)) :
    m.score candidate reference =
      Except.error (ScoreError.providerError e) ∧
    ∀ s : ℚ, m.score candidate reference ≠ Except.ok s := by
  have hm : m.score candidate reference =
      Except.error (ScoreError.providerError e) := by
    unfold Metric.score
    rcases h with h | ⟨v, hv, h⟩
    · rw [h]
    · rw [hv, h]
  exact ⟨hm, fun s hs => by rw [hm] at hs; exact absurd hs (by simp)⟩

/-- Witness for C8 at a metric whose provider's backend always fails. -/
theorem provider_error_propagates_witness :
    (AnswerSimilarity sampleLLM failingHosted.toProvider).provider.embed "c" =
      Except.error EmbedError.providerUnavailable ∧
    (AnswerSimilarity sampleLLM failingHosted.toProvider).score "c" "r" =
      Except.error (ScoreError.providerError EmbedError.providerUnavailable) := by
  have h := provider_error_propagates
    (AnswerSimilarity sampleLLM failingHosted.toProvider) "c" "r"
    EmbedError.providerUnavailable (Or.inl rfl)
  exact ⟨rfl, h.1⟩

/-- C9: a provider and an LLM client may be shared between metrics —
constructing a new metric leaves the score of every previously constructed
metric unchanged, and a metric's score depends only on its own injected
provider and LLM client. -/
theorem metric_isolation :
    (∀ (w : World) (mNew : Metric) (i : Nat) (candidate reference : Text),
      i < List.length w →
      scoreAt (constructMetric w mNew) i candidate reference =
        scoreAt w i candidate reference) ∧
    (∀ (m1 m2 : Metric) (candidate reference : Text),
      m1.provider = m2.provider → m1.llm = m2.llm →
      m1.score candidate reference = m2.score candidate reference) := by
  constructor
  · intro w mNew i candidate reference hi
    unfold scoreAt constructMetric
    rw [List.append_eq, List.get?_eq_getElem?, List.get?_eq_getElem?,
      List.getElem?_append_left hi]
  · intro m1 m2 candidate reference hp _
    unfold Metric.score
    rw [hp]

/-- Witness for C9: constructing a second answer-similarity metric over a
different provider leaves the first metric's score unchanged. -/
theorem metric_isolation_witness :
    (0 : Nat) <
      List.length [AnswerSimilarity sampleLLM sampleLocal.toProvider] ∧
    scoreAt
        (constructMetric [AnswerSimilarity sampleLLM sampleLocal.toProvider]
          (AnswerSimilarity sampleLLM failingHosted.toProvider))
        0 "c" "r" =
      scoreAt [AnswerSimilarity sampleLLM sampleLocal.toProvider] 0 "c" "r" :=
  ⟨by decide,
    metric_isolation.1 [AnswerSimilarity sampleLLM sampleLocal.toProvider]
      (AnswerSimilarity sampleLLM failingHosted.toProvider) 0 "c" "r"
      (by decide)⟩

/-- C10: for every dataset and non-empty metric list, `evaluate` returns
exactly one entry per supplied metric, in order, keyed by that metric's
name and holding that metric's score on the dataset. -/
theorem evaluate_one_entry_per_metric (ds : List Row) (metrics : List Metric)
    (_hne : metrics ≠ []) :
    (evaluate ds metrics).length = metrics.length ∧
    ∀ (i : Nat) (hi : i < metrics.length),
      List.get? (evaluate ds metrics) i =
        some ((metrics.get ⟨i, hi⟩).name,
          (metrics.get ⟨i, hi⟩).scoreDataset ds) := by
  constructor
  · simp [evaluate]
  · intro i hi
    rw [List.get?_eq_getElem?]
    simp only [evaluate, List.getElem?_map]
    rw [List.getElem?_eq_getElem (by simpa using hi)]
    rfl

/-- Witness for C10 at a one-row dataset and one answer-similarity metric. -/
theorem evaluate_one_entry_per_metric_witness :
    ([AnswerSimilarity sampleLLM sampleLocal.toProvider] : List Metric) ≠ [] ∧
    (evaluate [Row.mk "c" "r"]
        [AnswerSimilarity sampleLLM sampleLocal.toProvider]).length = 1 ∧
    List.get? (evaluate [Row.mk "c" "r"]
        [AnswerSimilarity sampleLLM sampleLocal.toProvider]) 0 =
      some ("answer_similarity",
        (AnswerSimilarity sampleLLM
          sampleLocal.toProvider).scoreDataset [Row.mk "c" "r"]) := by
  have h := evaluate_one_entry_per_metric [Row.mk "c" "r"]
    [AnswerSimilarity sampleLLM sampleLocal.toProvider] (by simp)
  exact ⟨by simp, h.1, h.2 0 (by decide)⟩

end Ragas
